import Mathlib

/-!
Verification of the FastAPI Plotly backend (main.py, models.py) against its
natural-language specification.  The Python code is shallowly embedded:
JSON/BSON documents become the inductive type `Value`, the module-level
mutable dictionaries (`csrf_tokens`, `request_counts`) become association
lists threaded through the functions, `time.time()` becomes an explicit
integer-seconds parameter, and every handler that can raise `HTTPException`
returns `Except HTTPError _`.
-/

namespace FastAPIBackend

/-- JSON/BSON-like document values, as handled by the Python code
(dicts, lists, strings, ints, bools, None). -/
inductive Value where
  | vnull : Value
  | vbool : Bool → Value
  | vint : Int → Value
  | vstr : String → Value
  | varr : List Value → Value
  | vdict : List (String × Value) → Value
deriving Repr

/-- Deny-list of MongoDB operators, from `sanitize_mongodb_input`
(main.py line 270): `dangerous_keys = ['$where', '$regex', '$text',
'$expr', '$jsonSchema', '$mod', '$ne']`. -/
def dangerous_keys : List String :=
  ["$where", "$regex", "$text", "$expr", "$jsonSchema", "$mod", "$ne"]

mutual

/-- Embedding of `sanitize_mongodb_input` (main.py lines 266-274): on a dict,
drop deny-listed keys and recurse into the values; on a list, recurse into
the elements; return any other value unchanged. -/
def sanitize_mongodb_input : Value → Value
  | .vnull => .vnull
  | .vbool b => .vbool b
  | .vint n => .vint n
  | .vstr s => .vstr s
  | .varr vs => .varr (sanitizeArr vs)
  | .vdict kvs => .vdict (sanitizeDict kvs)

/-- The dict comprehension of main.py line 271: keep entries whose key is
not deny-listed, sanitizing each kept value. -/
def sanitizeDict : List (String × Value) → List (String × Value)
  | [] => []
  | (k, v) :: rest =>
      if k ∈ dangerous_keys then sanitizeDict rest
      else (k, sanitize_mongodb_input v) :: sanitizeDict rest

/-- The list comprehension of main.py line 273: sanitize each element. -/
def sanitizeArr : List Value → List Value
  | [] => []
  | v :: rest => sanitize_mongodb_input v :: sanitizeArr rest

end

mutual

/-- A value contains a deny-listed map key at some nesting depth. -/
def hasDeniedKey : Value → Bool
  | .vnull => false
  | .vbool _ => false
  | .vint _ => false
  | .vstr _ => false
  | .varr vs => hasDeniedKeyArr vs
  | .vdict kvs => hasDeniedKeyDict kvs

/-- Some entry of the dict has a deny-listed key, or hides one deeper. -/
def hasDeniedKeyDict : List (String × Value) → Bool
  | [] => false
  | (k, v) :: rest =>
      decide (k ∈ dangerous_keys) || hasDeniedKey v || hasDeniedKeyDict rest

/-- Some element of the list contains a deny-listed key. -/
def hasDeniedKeyArr : List Value → Bool
  | [] => false
  | v :: rest => hasDeniedKey v || hasDeniedKeyArr rest

end

example :
    sanitize_mongodb_input
      (.vdict [("$where", .vstr "1"), ("x", .vint 3)]) = .vdict [("x", .vint 3)] :=
  rfl

example :
    sanitize_mongodb_input
      (.varr [.vdict [("a", .vdict [("$ne", .vnull), ("b", .vint 1)])]])
      = .varr [.vdict [("a", .vdict [("b", .vint 1)])]] :=
  rfl

mutual

theorem sanitize_no_denied : ∀ v, hasDeniedKey (sanitize_mongodb_input v) = false
  | .vnull => rfl
  | .vbool _ => rfl
  | .vint _ => rfl
  | .vstr _ => rfl
  | .varr vs => sanitizeArr_no_denied vs
  | .vdict kvs => sanitizeDict_no_denied kvs

theorem sanitizeDict_no_denied : ∀ kvs, hasDeniedKeyDict (sanitizeDict kvs) = false
  | [] => rfl
  | (k, v) :: rest => by
      by_cases hk : k ∈ dangerous_keys
      · simp only [sanitizeDict, if_pos hk]
        exact sanitizeDict_no_denied rest
      · simp only [sanitizeDict, if_neg hk, hasDeniedKeyDict,
          sanitize_no_denied v, sanitizeDict_no_denied rest, hk]
        simp

theorem sanitizeArr_no_denied : ∀ vs, hasDeniedKeyArr (sanitizeArr vs) = false
  | [] => rfl
  | v :: rest => by
      simp only [sanitizeArr, hasDeniedKeyArr, sanitize_no_denied v,
        sanitizeArr_no_denied rest]
      simp

end

mutual

theorem sanitize_clean_id : ∀ v, hasDeniedKey v = false → sanitize_mongodb_input v = v
  | .vnull, _ => rfl
  | .vbool _, _ => rfl
  | .vint _, _ => rfl
  | .vstr _, _ => rfl
  | .varr vs, h => by
      simp only [sanitize_mongodb_input, Value.varr.injEq]
      exact sanitizeArr_clean_id vs h
  | .vdict kvs, h => by
      simp only [sanitize_mongodb_input, Value.vdict.injEq]
      exact sanitizeDict_clean_id kvs h

theorem sanitizeDict_clean_id :
    ∀ kvs, hasDeniedKeyDict kvs = false → sanitizeDict kvs = kvs
  | [], _ => rfl
  | (k, v) :: rest, h => by
      simp only [hasDeniedKeyDict, Bool.or_eq_false_iff, decide_eq_false_iff_not] at h
      obtain ⟨⟨hk, hv⟩, hrest⟩ := h
      simp only [sanitizeDict, if_neg hk, sanitize_clean_id v hv,
        sanitizeDict_clean_id rest hrest]

theorem sanitizeArr_clean_id : ∀ vs, hasDeniedKeyArr vs = false → sanitizeArr vs = vs
  | [], _ => rfl
  | v :: rest, h => by
      simp only [hasDeniedKeyArr, Bool.or_eq_false_iff] at h
      simp only [sanitizeArr, sanitize_clean_id v h.1, sanitizeArr_clean_id rest h.2]

end

theorem sanitizeArr_map : ∀ vs, sanitizeArr vs = vs.map sanitize_mongodb_input
  | [] => rfl
  | v :: rest => by simp only [sanitizeArr, List.map, sanitizeArr_map rest]

theorem sanitizeDict_keys :
    ∀ kvs, (sanitizeDict kvs).map Prod.fst
      = (kvs.map Prod.fst).filter (fun k => decide (k ∉ dangerous_keys))
  | [] => rfl
  | (k, v) :: rest => by
      by_cases hk : k ∈ dangerous_keys
      · simp [sanitizeDict, hk, sanitizeDict_keys rest]
      · simp [sanitizeDict, hk, sanitizeDict_keys rest]

/-- C7: the sanitizer removes every deny-listed map key at every nesting
depth; dict keys that are not deny-listed are kept, in order; arrays are
sanitized elementwise (order and length unchanged); values with no
deny-listed key anywhere, in particular scalars, are returned unchanged. -/
theorem C7_sanitize_strips_denied_keys_recursively :
    (∀ v, hasDeniedKey (sanitize_mongodb_input v) = false) ∧
    (∀ kvs, (sanitizeDict kvs).map Prod.fst
      = (kvs.map Prod.fst).filter (fun k => decide (k ∉ dangerous_keys))) ∧
    (∀ vs, sanitizeArr vs = vs.map sanitize_mongodb_input) ∧
    (∀ v, hasDeniedKey v = false → sanitize_mongodb_input v = v) :=
  ⟨sanitize_no_denied, sanitizeDict_keys, sanitizeArr_map, sanitize_clean_id⟩

/-- C7 witness: the sanitizer evaluated on a concrete nested structure with
a deny-listed key two levels deep, and on a concrete clean structure. -/
theorem C7_sanitize_strips_denied_keys_recursively_witness :
    hasDeniedKey (sanitize_mongodb_input
      (.vdict [("a", .varr [.vdict [("$where", .vstr "1"), ("b", .vint 2)]])])) = false
    ∧ hasDeniedKey (.vdict [("a", .vint 1), ("b", .vstr "x")]) = false
    ∧ sanitize_mongodb_input (.vdict [("a", .vint 1), ("b", .vstr "x")])
      = .vdict [("a", .vint 1), ("b", .vstr "x")] :=
  ⟨C7_sanitize_strips_denied_keys_recursively.1 _, rfl,
    C7_sanitize_strips_denied_keys_recursively.2.2.2 _ rfl⟩

/-- HTTP request methods relevant to the CSRF dependency. -/
inductive Method where
  | GET
  | HEAD
  | OPTIONS
  | POST
  | PUT
  | DELETE
deriving DecidableEq, Repr

/-- Embedding of FastAPI `HTTPException(status_code=..., detail=...)`. -/
structure HTTPError where
  status_code : Nat
  detail : String
deriving DecidableEq, Repr

/-- The module-level dict `csrf_tokens: Dict[str, float]` (main.py line 93),
as an association list from token to issue timestamp in seconds. -/
abbrev TokenStore := List (String × Int)

/-- Python `csrf_tokens.get(k, 0)` (main.py line 123). -/
def storeGetD (store : TokenStore) (k : String) : Int :=
  match store.find? (fun e => e.1 == k) with
  | some e => e.2
  | none => 0

/-- Python `csrf_tokens[k] = v`: replace the binding in place when the key
exists, else append (insertion-ordered dict). -/
def storeSet (store : TokenStore) (k : String) (v : Int) : TokenStore :=
  if store.any (fun e => e.1 == k) then
    store.map (fun e => if e.1 == k then (k, v) else e)
  else store ++ [(k, v)]

/-- Python truthiness of `Optional[str]`: `None` and `""` are falsy, which
is what `if not xsrf_token or not x_csrf_token` (main.py line 107) tests. -/
def falsyStr : Option String → Bool
  | none => true
  | some s => s == ""

/-- Embedding of `validate_csrf` (main.py lines 96-129): skip safe methods;
403 when either token is missing; 403 when they differ; 403 when the
timestamp recorded for the token (0 when absent) is more than 86400 seconds
before `current_time`; otherwise succeed. -/
def validate_csrf (method : Method) (xsrf_token x_csrf_token : Option String)
    (csrf_tokens : TokenStore) (current_time : Int) : Except HTTPError Unit :=
  if method = .GET ∨ method = .HEAD ∨ method = .OPTIONS then .ok ()
  else if falsyStr xsrf_token || falsyStr x_csrf_token then
    .error ⟨403, "CSRF token missing"⟩
  else if xsrf_token ≠ x_csrf_token then
    .error ⟨403, "Invalid CSRF token"⟩
  else if current_time - storeGetD csrf_tokens (xsrf_token.getD "") > 86400 then
    .error ⟨403, "CSRF token expired"⟩
  else .ok ()

/-- Embedding of `get_csrf_token` (main.py lines 206-227): record the fresh
token at time `now₁`, then sweep every entry older than 86400 seconds
relative to `now₂` (the code reads the clock a second time for the sweep),
and return the token together with the new store. -/
def get_csrf_token (csrf_tokens : TokenStore) (token : String) (now₁ now₂ : Int) :
    String × TokenStore :=
  let store₁ := storeSet csrf_tokens token now₁
  let store₂ := store₁.filter (fun e => !decide (now₂ - e.2 > 86400))
  (token, store₂)

theorem storeSet_self_mem (m : TokenStore) (k : String) (v : Int) :
    (k, v) ∈ storeSet m k v := by
  unfold storeSet
  by_cases h : m.any (fun e => e.1 == k)
  · simp only [if_pos h]
    obtain ⟨e, he, hek⟩ := List.any_eq_true.mp h
    exact List.mem_map.mpr ⟨e, he, by simp [hek]⟩
  · simp [if_neg h]

theorem storeGetD_of_find (store : TokenStore) (t : String) (ts : Int)
    (h : store.find? (fun e => e.1 == t) = some (t, ts)) : storeGetD store t = ts := by
  unfold storeGetD
  rw [h]

/-- C4: for safe methods (GET/HEAD/OPTIONS) CSRF validation succeeds without
any check; for mutating methods it fails with a 403 error when either token
is absent, fails with 403 when the two tokens are not byte-equal, fails
with 403 when the issue time recorded for the token is more than 24 hours
(86400 s) before the current time, and otherwise succeeds returning
nothing. -/
theorem C4_validate_csrf_spec :
    ∀ (m : Method) (store : TokenStore) (now : Int),
      ((m = .GET ∨ m = .HEAD ∨ m = .OPTIONS) →
        ∀ ct ht, validate_csrf m ct ht store now = .ok ()) ∧
      (¬(m = .GET ∨ m = .HEAD ∨ m = .OPTIONS) →
        ((∀ ct ht, (ct = none ∨ ht = none) →
            ∃ e, validate_csrf m ct ht store now = .error e ∧ e.status_code = 403) ∧
         (∀ a b, a ≠ b →
            ∃ e, validate_csrf m (some a) (some b) store now = .error e ∧
              e.status_code = 403) ∧
         (∀ t ts, store.find? (fun e => e.1 == t) = some (t, ts) →
            now - ts > 86400 →
            ∃ e, validate_csrf m (some t) (some t) store now = .error e ∧
              e.status_code = 403) ∧
         (∀ t ts, t ≠ "" → store.find? (fun e => e.1 == t) = some (t, ts) →
            now - ts ≤ 86400 →
            validate_csrf m (some t) (some t) store now = .ok ()))) := by
  intro m store now
  constructor
  · intro hsafe ct ht
    simp [validate_csrf, hsafe]
  · intro hunsafe
    refine ⟨?_, ?_, ?_, ?_⟩
    · intro ct ht h
      have hf : (falsyStr ct || falsyStr ht) = true := by
        rcases h with h | h <;> subst h <;> simp [falsyStr]
      refine ⟨⟨403, "CSRF token missing"⟩, ?_, rfl⟩
      simp [validate_csrf, hunsafe, hf]
    · intro a b hab
      by_cases hf : (falsyStr (some a) || falsyStr (some b)) = true
      · refine ⟨⟨403, "CSRF token missing"⟩, ?_, rfl⟩
        simp [validate_csrf, hunsafe, hf]
      · refine ⟨⟨403, "Invalid CSRF token"⟩, ?_, rfl⟩
        have hne : (some a ≠ some b) := by simpa using hab
        simp [validate_csrf, hunsafe, hf, hne]
    · intro t ts hfind hold
      by_cases ht0 : t = ""
      · refine ⟨⟨403, "CSRF token missing"⟩, ?_, rfl⟩
        subst ht0
        simp [validate_csrf, hunsafe, falsyStr]
      · refine ⟨⟨403, "CSRF token expired"⟩, ?_, rfl⟩
        have hf : falsyStr (some t) = false := by simp [falsyStr, ht0]
        simp [validate_csrf, hunsafe, hf, storeGetD_of_find store t ts hfind, hold]
    · intro t ts ht0 hfind hyoung
      have hf : falsyStr (some t) = false := by simp [falsyStr, ht0]
      simp [validate_csrf, hunsafe, hf, storeGetD_of_find store t ts hfind,
        not_lt.mpr hyoung]

/-- C4 witness: each clause of the CSRF validation contract evaluated at a
concrete method, token pair, store and clock value. -/
theorem C4_validate_csrf_spec_witness :
    validate_csrf .GET none none [] 0 = .ok () ∧
    (∃ e, validate_csrf .POST none (some "a") [] 0 = .error e ∧ e.status_code = 403) ∧
    (∃ e, validate_csrf .POST (some "a") (some "b") [] 0 = .error e ∧
      e.status_code = 403) ∧
    (∃ e, validate_csrf .POST (some "t") (some "t") [("t", 0)] 100000 = .error e ∧
      e.status_code = 403) ∧
    validate_csrf .POST (some "t") (some "t") [("t", 0)] 1000 = .ok () :=
  ⟨(C4_validate_csrf_spec .GET [] 0).1 (by simp) none none,
   ((C4_validate_csrf_spec .POST [] 0).2 (by simp)).1 none (some "a") (Or.inl rfl),
   ((C4_validate_csrf_spec .POST [] 0).2 (by simp)).2.1 "a" "b" (by decide),
   ((C4_validate_csrf_spec .POST [("t", 0)] 100000).2 (by simp)).2.2.1 "t" 0
     (by rfl) (by decide),
   ((C4_validate_csrf_spec .POST [("t", 0)] 1000).2 (by simp)).2.2.2 "t" 0
     (by decide) (by rfl) (by decide)⟩

/-- C10: for a mutating request whose cookie and header tokens are present
and equal but never recorded in the token store, `csrf_tokens.get(token, 0)`
yields issue time 0, so whenever the clock is past 86400 seconds the
validation fails with 403 and the detail reports the token as expired. -/
theorem C10_unknown_token_rejected_as_expired :
    ∀ (m : Method) (t : String) (store : TokenStore) (now : Int),
      ¬(m = .GET ∨ m = .HEAD ∨ m = .OPTIONS) → t ≠ "" →
      store.find? (fun e => e.1 == t) = none → now > 86400 →
      validate_csrf m (some t) (some t) store now =
        .error ⟨403, "CSRF token expired"⟩ := by
  intro m t store now hunsafe ht0 hfind hnow
  have hget : storeGetD store t = 0 := by
    unfold storeGetD
    rw [hfind]
  have hf : falsyStr (some t) = false := by simp [falsyStr, ht0]
  have hold : now - storeGetD store t > 86400 := by omega
  simp [validate_csrf, hunsafe, hf, hold]

/-- C10 witness: a POST with matching tokens absent from the store, at a
clock value one second past 24 hours, is rejected as expired. -/
theorem C10_unknown_token_rejected_as_expired_witness :
    validate_csrf .POST (some "tok") (some "tok") [] 86401 =
      .error ⟨403, "CSRF token expired"⟩ :=
  C10_unknown_token_rejected_as_expired .POST "tok" [] 86401 (by simp)
    (by decide) (by rfl) (by decide)

/-- C9: issuing a CSRF token returns the fresh token, records it at the
current time (it is present in the store as long as the sweep clock has
not jumped more than 24 hours past it), removes every entry older than
86400 seconds, and removes no entry 86400 seconds old or younger. -/
theorem C9_issue_records_and_sweeps :
    ∀ (store : TokenStore) (token : String) (now₁ now₂ : Int),
      (get_csrf_token store token now₁ now₂).1 = token ∧
      (now₂ - now₁ ≤ 86400 → (token, now₁) ∈ (get_csrf_token store token now₁ now₂).2) ∧
      (∀ e ∈ (get_csrf_token store token now₁ now₂).2, now₂ - e.2 ≤ 86400) ∧
      (∀ e ∈ storeSet store token now₁,
        now₂ - e.2 ≤ 86400 → e ∈ (get_csrf_token store token now₁ now₂).2) := by
  intro store token now₁ now₂
  refine ⟨rfl, ?_, ?_, ?_⟩
  · intro hfresh
    exact List.mem_filter.mpr ⟨storeSet_self_mem store token now₁, by
      rw [Bool.not_eq_true', decide_eq_false_iff_not]
      omega⟩
  · intro e he
    have h2 := (List.mem_filter.mp he).2
    rw [Bool.not_eq_true', decide_eq_false_iff_not] at h2
    omega
  · intro e he hyoung
    exact List.mem_filter.mpr ⟨he, by
      rw [Bool.not_eq_true', decide_eq_false_iff_not]
      omega⟩

/-- C9 witness: issuing a token over a concrete store holding one stale and
one fresh entry keeps the fresh entry and the new token and drops the stale
entry. -/
theorem C9_issue_records_and_sweeps_witness :
    (get_csrf_token [("old", 0), ("fresh", 90000)] "new" 100000 100000).1 = "new" ∧
    ("new", 100000) ∈ (get_csrf_token [("old", 0), ("fresh", 90000)] "new"
      100000 100000).2 ∧
    ("fresh", 90000) ∈ (get_csrf_token [("old", 0), ("fresh", 90000)] "new"
      100000 100000).2 ∧
    (∀ e ∈ (get_csrf_token [("old", 0), ("fresh", 90000)] "new"
      100000 100000).2, 100000 - e.2 ≤ 86400) :=
  ⟨(C9_issue_records_and_sweeps [("old", 0), ("fresh", 90000)] "new" 100000 100000).1,
   (C9_issue_records_and_sweeps [("old", 0), ("fresh", 90000)] "new"
      100000 100000).2.1 (by decide),
   (C9_issue_records_and_sweeps [("old", 0), ("fresh", 90000)] "new"
      100000 100000).2.2.2 ("fresh", 90000) (by decide) (by decide),
   (C9_issue_records_and_sweeps [("old", 0), ("fresh", 90000)] "new"
      100000 100000).2.2.1⟩

/-- The module-level dict `request_counts` (main.py line 132): client key
to list of request timestamps, as an insertion-ordered association list. -/
abbrev RateMap := List (String × List Int)

/-- Python `request_counts.get(client_ip, [])` (main.py lines 140 and 143). -/
def rateGetD (m : RateMap) (k : String) : List Int :=
  match m.find? (fun e => e.1 == k) with
  | some e => e.2
  | none => []

/-- Python `request_counts[client_ip] = v`: replace the binding of the key
in place when present (dict keys are unique), else append. -/
def rateSet : RateMap → String → List Int → RateMap
  | [], k, v => [(k, v)]
  | e :: rest, k, v => if e.1 == k then (k, v) :: rest else e :: rateSet rest k v

theorem rateGetD_rateSet_self :
    ∀ (m : RateMap) (k : String) (v : List Int), rateGetD (rateSet m k v) k = v
  | [], k, v => by simp [rateSet, rateGetD]
  | e :: rest, k, v => by
      by_cases h : e.1 == k
      · simp [rateSet, rateGetD, h]
      · simp only [rateSet, if_neg h]
        show rateGetD (e :: rateSet rest k v) k = v
        simp only [rateGetD, List.find?, h]
        exact rateGetD_rateSet_self rest k v

/-- Embedding of `rate_limit_middleware` (main.py lines 133-152): prune the
client entry to timestamps strictly within the trailing 60 seconds; if 100
or more survive, answer 429 without recording the current request;
otherwise append the current timestamp and admit. The dict state after the
call is returned alongside the outcome. -/
def rate_limit_middleware (request_counts : RateMap) (client_ip : String)
    (current_time : Int) : Except HTTPError Unit × RateMap :=
  let cutoff_time := current_time - 60
  let pruned := (rateGetD request_counts client_ip).filter
    (fun t => decide (t > cutoff_time))
  let counts₁ := rateSet request_counts client_ip pruned
  if (rateGetD counts₁ client_ip).length ≥ 100 then
    (.error ⟨429, "Rate limit exceeded"⟩, counts₁)
  else
    (.ok (), rateSet counts₁ client_ip (rateGetD counts₁ client_ip ++ [current_time]))

/-- C3: the limiter prunes the client entry to timestamps within the
trailing 60 seconds; when 100 or more survive it answers 429 and the
current timestamp is not recorded (the stored entry is exactly the pruned
list); otherwise it appends the current timestamp and admits.
Consequently a client whose 100 recorded requests all lie within the
window is rejected, and a client all of whose recorded requests are at
least 61 seconds old is admitted. -/
theorem C3_rate_limiter_spec :
    ∀ (counts : RateMap) (ip : String) (now : Int),
      (((rateGetD counts ip).filter (fun t => decide (t > now - 60))).length ≥ 100 →
        (rate_limit_middleware counts ip now).1 = .error ⟨429, "Rate limit exceeded"⟩ ∧
        rateGetD (rate_limit_middleware counts ip now).2 ip
          = (rateGetD counts ip).filter (fun t => decide (t > now - 60))) ∧
      (((rateGetD counts ip).filter (fun t => decide (t > now - 60))).length < 100 →
        (rate_limit_middleware counts ip now).1 = .ok () ∧
        rateGetD (rate_limit_middleware counts ip now).2 ip
          = (rateGetD counts ip).filter (fun t => decide (t > now - 60)) ++ [now]) ∧
      ((rateGetD counts ip).length = 100 →
        (∀ t ∈ rateGetD counts ip, now - t < 60) →
        (rate_limit_middleware counts ip now).1 = .error ⟨429, "Rate limit exceeded"⟩) ∧
      ((∀ t ∈ rateGetD counts ip, now - t ≥ 61) →
        (rate_limit_middleware counts ip now).1 = .ok ()) := by
  intro counts ip now
  have hkey := rateGetD_rateSet_self counts ip
    ((rateGetD counts ip).filter (fun t => decide (t > now - 60)))
  refine ⟨?_, ?_, ?_, ?_⟩
  · intro hfull
    constructor
    · simp only [rate_limit_middleware, hkey, if_pos hfull]
    · simp only [rate_limit_middleware, hkey, if_pos hfull]
  · intro hroom
    constructor
    · simp only [rate_limit_middleware, hkey, if_neg (not_le.mpr hroom)]
    · simp only [rate_limit_middleware, hkey, if_neg (not_le.mpr hroom)]
      exact rateGetD_rateSet_self _ ip _
  · intro hlen hwindow
    have hall : (rateGetD counts ip).filter (fun t => decide (t > now - 60))
        = rateGetD counts ip := by
      apply List.filter_eq_self.mpr
      intro t ht
      have := hwindow t ht
      simp only [decide_eq_true_eq]
      omega
    have hfull : ((rateGetD counts ip).filter
        (fun t => decide (t > now - 60))).length ≥ 100 := by
      rw [hall, hlen]
    simp only [rate_limit_middleware, hkey, if_pos hfull]
  · intro hstale
    have hnone : (rateGetD counts ip).filter (fun t => decide (t > now - 60)) = [] := by
      apply List.filter_eq_nil_iff.mpr
      intro t ht
      have := hstale t ht
      simp only [decide_eq_true_eq]
      omega
    have hroom : ((rateGetD counts ip).filter
        (fun t => decide (t > now - 60))).length < 100 := by
      rw [hnone]
      decide
    simp only [rate_limit_middleware, hkey, if_neg (not_le.mpr hroom)]

/-- C3 witness: a client with 100 recorded requests all 30 seconds old is
rejected at the 101st request; the same client 70 seconds after those
requests is admitted; a fresh client is admitted and its timestamp is
recorded. -/
theorem C3_rate_limiter_spec_witness :
    (rate_limit_middleware [("c", List.replicate 100 0)] "c" 30).1
      = .error ⟨429, "Rate limit exceeded"⟩ ∧
    (rate_limit_middleware [("c", List.replicate 100 0)] "c" 70).1 = .ok () ∧
    ((rate_limit_middleware [] "d" 5).1 = .ok () ∧
      rateGetD (rate_limit_middleware [] "d" 5).2 "d" = [5]) :=
  ⟨(C3_rate_limiter_spec [("c", List.replicate 100 0)] "c" 30).2.2.1 (by decide)
      (by decide),
   (C3_rate_limiter_spec [("c", List.replicate 100 0)] "c" 70).2.2.2 (by decide),
   (C3_rate_limiter_spec [] "d" 5).2.1 (by decide)⟩

/-- A stored generic data document (models.py `SimpleDataInDB`), restricted
to the fields the handlers manipulate; timestamps in integer seconds. -/
structure SimpleRecord where
  item_id : Int
  data : Value
  title : Option String
  description : Option String
  created_at : Int
  updated_at : Int
deriving Repr

/-- A validated `SimpleDataCreate` payload (models.py lines 140-150). -/
structure SimpleDataCreate where
  data : Value
  title : Option String
  description : Option String
deriving Repr

/-- A `SimpleDataUpdate` payload (models.py lines 152-162): every field is
optional and `none` stands for absent or null. -/
structure SimpleDataUpdate where
  data : Option Value
  title : Option String
  description : Option String
deriving Repr

/-- A stored Plotly chart document (models.py `PlotlyDataInDB`). -/
structure PlotlyRecord where
  item_id : Int
  title : Option String
  description : Option String
  chart_type : Option String
  data : List Value
  layout : Option Value
  created_at : Int
  updated_at : Int
deriving Repr

/-- A validated `PlotlyDataCreate` payload (models.py lines 35-52). -/
structure PlotlyDataCreate where
  title : Option String
  description : Option String
  chart_type : Option String
  data : List Value
  layout : Option Value
deriving Repr

/-- The maximum over a list of item ids, mirroring
`collection.find().sort("item_id", -1).limit(1)`: the id of the first
record of the descending sort, `none` on an empty collection. -/
def max_item_id : List Int → Option Int
  | [] => none
  | x :: rest =>
      match max_item_id rest with
      | none => some x
      | some m => some (max x m)

/-- The id generation shared by `create_data` (main.py lines 324-328) and
`create_plotly_chart` (main.py lines 458-462): the stored maximum plus 1,
or 1 when the collection is empty. -/
def next_id (ids : List Int) : Int :=
  match max_item_id ids with
  | none => 1
  | some m => m + 1

/-- Embedding of `create_data` (main.py lines 320-351): assign the next id,
build the stored document from the payload exactly as received (the handler
does not call `sanitize_mongodb_input`), insert it, and answer with the
assigned id. -/
def create_data (coll : List SimpleRecord) (payload : SimpleDataCreate)
    (now : Int) : Int × List SimpleRecord :=
  let nid := next_id (coll.map (fun r => r.item_id))
  let doc : SimpleRecord :=
    { item_id := nid, data := payload.data, title := payload.title,
      description := payload.description, created_at := now, updated_at := now }
  (nid, coll ++ [doc])

/-- Embedding of `create_plotly_chart` (main.py lines 454-485): same id
generation and insertion as `create_data`, for the chart document shape. -/
def create_plotly_chart (coll : List PlotlyRecord) (payload : PlotlyDataCreate)
    (now : Int) : Int × List PlotlyRecord :=
  let nid := next_id (coll.map (fun r => r.item_id))
  let doc : PlotlyRecord :=
    { item_id := nid, title := payload.title, description := payload.description,
      chart_type := payload.chart_type, data := payload.data,
      layout := payload.layout, created_at := now, updated_at := now }
  (nid, coll ++ [doc])

theorem max_item_id_eq_none : ∀ ids : List Int, max_item_id ids = none ↔ ids = []
  | [] => by simp [max_item_id]
  | x :: rest => by
      simp only [max_item_id]
      cases max_item_id rest <;> simp

theorem max_item_id_mem : ∀ (ids : List Int) (m : Int),
    max_item_id ids = some m → m ∈ ids
  | [], m => by simp [max_item_id]
  | x :: rest, m => by
      intro h
      simp only [max_item_id] at h
      cases hr : max_item_id rest with
      | none =>
          rw [hr] at h
          simp only [Option.some.injEq] at h
          simp [h]
      | some n =>
          rw [hr] at h
          simp only [Option.some.injEq] at h
          rcases max_choice x n with hc | hc
          · rw [hc] at h
            simp [h]
          · rw [hc] at h
            exact List.mem_cons_of_mem x (h ▸ max_item_id_mem rest n hr)

theorem max_item_id_le : ∀ (ids : List Int) (m : Int),
    max_item_id ids = some m → ∀ x ∈ ids, x ≤ m
  | [], _ => by simp
  | y :: rest, m => by
      intro h x hx
      simp only [max_item_id] at h
      cases hr : max_item_id rest with
      | none =>
          rw [hr] at h
          simp only [Option.some.injEq] at h
          have : rest = [] := (max_item_id_eq_none rest).mp hr
          subst this
          simp only [List.mem_singleton] at hx
          omega
      | some n =>
          rw [hr] at h
          simp only [Option.some.injEq] at h
          rcases List.mem_cons.mp hx with hxy | hxr
          · subst hxy
            calc x ≤ max x n := le_max_left x n
              _ = m := h
          · calc x ≤ n := max_item_id_le rest n hr x hxr
              _ ≤ max y n := le_max_right y n
              _ = m := h

theorem next_id_spec (ids : List Int) :
    (ids = [] → next_id ids = 1) ∧
    (∀ x ∈ ids, x < next_id ids) ∧
    (ids ≠ [] → ∃ x ∈ ids, next_id ids = x + 1 ∧ ∀ y ∈ ids, y ≤ x) := by
  cases h : max_item_id ids with
  | none =>
      have hnil : ids = [] := (max_item_id_eq_none ids).mp h
      subst hnil
      exact ⟨fun _ => by simp [next_id, max_item_id], by simp, by simp⟩
  | some m =>
      have hne : ids ≠ [] := by
        intro hnil
        subst hnil
        simp [max_item_id] at h
      have hnext : next_id ids = m + 1 := by simp [next_id, h]
      refine ⟨fun hnil => absurd hnil hne, ?_, ?_⟩
      · intro x hx
        have := max_item_id_le ids m h x hx
        omega
      · intro _
        exact ⟨m, max_item_id_mem ids m h, hnext, max_item_id_le ids m h⟩

/-- C5: the id assigned by a create operation is 1 on an empty collection
and otherwise the maximum stored item_id plus 1 (so it strictly exceeds
every stored item_id); this holds for the generic data create and for the
chart create alike. -/
theorem C5_assigned_id_is_max_plus_one :
    (∀ (coll : List SimpleRecord) (p : SimpleDataCreate) (now : Int),
      (coll = [] → (create_data coll p now).1 = 1) ∧
      (∀ r ∈ coll, r.item_id < (create_data coll p now).1) ∧
      (coll ≠ [] → ∃ r ∈ coll, (create_data coll p now).1 = r.item_id + 1 ∧
        ∀ s ∈ coll, s.item_id ≤ r.item_id)) ∧
    (∀ (coll : List PlotlyRecord) (p : PlotlyDataCreate) (now : Int),
      (coll = [] → (create_plotly_chart coll p now).1 = 1) ∧
      (∀ r ∈ coll, r.item_id < (create_plotly_chart coll p now).1) ∧
      (coll ≠ [] → ∃ r ∈ coll, (create_plotly_chart coll p now).1 = r.item_id + 1 ∧
        ∀ s ∈ coll, s.item_id ≤ r.item_id)) := by
  constructor
  · intro coll p now
    obtain ⟨h1, h2, h3⟩ := next_id_spec (coll.map (fun r => r.item_id))
    refine ⟨?_, ?_, ?_⟩
    · intro hnil
      subst hnil
      exact h1 rfl
    · intro r hr
      exact h2 r.item_id (List.mem_map_of_mem _ hr)
    · intro hne
      obtain ⟨x, hxmem, hxeq, hxmax⟩ := h3 (by simpa using hne)
      obtain ⟨r, hr, hrid⟩ := List.mem_map.mp hxmem
      subst hrid
      refine ⟨r, hr, hxeq, ?_⟩
      intro s hs
      exact hxmax s.item_id (List.mem_map_of_mem _ hs)
  · intro coll p now
    obtain ⟨h1, h2, h3⟩ := next_id_spec (coll.map (fun r => r.item_id))
    refine ⟨?_, ?_, ?_⟩
    · intro hnil
      subst hnil
      exact h1 rfl
    · intro r hr
      exact h2 r.item_id (List.mem_map_of_mem _ hr)
    · intro hne
      obtain ⟨x, hxmem, hxeq, hxmax⟩ := h3 (by simpa using hne)
      obtain ⟨r, hr, hrid⟩ := List.mem_map.mp hxmem
      subst hrid
      refine ⟨r, hr, hxeq, ?_⟩
      intro s hs
      exact hxmax s.item_id (List.mem_map_of_mem _ hs)

/-- C5 witness: creating on an empty generic collection assigns id 1;
creating over a collection whose maximum item_id is 5 assigns an id equal
to that maximum plus 1; the chart create on an empty collection assigns 1. -/
theorem C5_assigned_id_is_max_plus_one_witness :
    (create_data [] ⟨.vnull, none, none⟩ 0).1 = 1 ∧
    (∃ r ∈ [(⟨5, .vnull, none, none, 0, 0⟩ : SimpleRecord)],
      (create_data [⟨5, .vnull, none, none, 0, 0⟩] ⟨.vnull, none, none⟩ 0).1
        = r.item_id + 1 ∧
      ∀ s ∈ [(⟨5, .vnull, none, none, 0, 0⟩ : SimpleRecord)],
        s.item_id ≤ r.item_id) ∧
    (create_plotly_chart [] ⟨none, none, some "line", [], none⟩ 0).1 = 1 :=
  ⟨(C5_assigned_id_is_max_plus_one.1 [] ⟨.vnull, none, none⟩ 0).1 rfl,
   (C5_assigned_id_is_max_plus_one.1 [⟨5, .vnull, none, none, 0, 0⟩]
      ⟨.vnull, none, none⟩ 0).2.2 (by simp),
   (C5_assigned_id_is_max_plus_one.2 [] ⟨none, none, some "line", [], none⟩ 0).1 rfl⟩

mutual

/-- Structural equality test on document values, used to model whether the
`$set` of `update_one` changed the stored document (`modified_count`). -/
def beqValue : Value → Value → Bool
  | .vnull, .vnull => true
  | .vbool a, .vbool b => a == b
  | .vint a, .vint b => a == b
  | .vstr a, .vstr b => a == b
  | .varr a, .varr b => beqValueArr a b
  | .vdict a, .vdict b => beqValueDict a b
  | _, _ => false

/-- Elementwise equality test on arrays of values. -/
def beqValueArr : List Value → List Value → Bool
  | [], [] => true
  | a :: as, b :: bs => beqValue a b && beqValueArr as bs
  | _, _ => false

/-- Entrywise equality test on dicts of values. -/
def beqValueDict : List (String × Value) → List (String × Value) → Bool
  | [], [] => true
  | (k1, v1) :: as, (k2, v2) :: bs => k1 == k2 && beqValue v1 v2 && beqValueDict as bs
  | _, _ => false

end

/-- Fieldwise equality test on stored generic documents. -/
def beqSimpleRecord (a b : SimpleRecord) : Bool :=
  a.item_id == b.item_id && beqValue a.data b.data && a.title == b.title &&
    a.description == b.description && a.created_at == b.created_at &&
    a.updated_at == b.updated_at

/-- The merge performed by `update_data` (main.py lines 366-372): `$set` of
exactly the payload fields that are not None, plus a fresh updated_at. -/
def apply_update (r : SimpleRecord) (u : SimpleDataUpdate) (now : Int) :
    SimpleRecord :=
  { r with
    data := match u.data with | some d => d | none => r.data
    title := match u.title with | some t => some t | none => r.title
    description := match u.description with | some d => some d | none => r.description
    updated_at := now }

/-- Replace the first stored document matching the id, which is what
`collection.update_one` with filter on item_id does. -/
def replaceFirst : List SimpleRecord → Int → SimpleRecord → List SimpleRecord
  | [], _, _ => []
  | r :: rest, iid, nr =>
      if r.item_id == iid then nr :: rest else r :: replaceFirst rest iid nr

/-- Embedding of `update_data` (main.py lines 353-390): 404 when no record
carries the id; otherwise merge the non-absent payload fields into the
first matching record with a fresh updated_at; 400 when the write modified
nothing. -/
def update_data (coll : List SimpleRecord) (item_id : Int) (u : SimpleDataUpdate)
    (now : Int) : Except HTTPError (List SimpleRecord) :=
  match coll.find? (fun r => r.item_id == item_id) with
  | none => .error ⟨404, "Item with ID " ++ toString item_id ++ " not found"⟩
  | some existing =>
      if beqSimpleRecord (apply_update existing u now) existing then
        .error ⟨400, "No changes were made"⟩
      else
        .ok (replaceFirst coll item_id (apply_update existing u now))

theorem replaceFirst_find :
    ∀ (coll : List SimpleRecord) (iid : Int) (r nr : SimpleRecord),
      coll.find? (fun x => x.item_id == iid) = some r →
      nr.item_id = r.item_id →
      (replaceFirst coll iid nr).find? (fun x => x.item_id == iid) = some nr
  | [], iid, r, nr => by simp
  | x :: rest, iid, r, nr => by
      intro hfind hnr
      by_cases hx : (x.item_id == iid) = true
      · simp only [List.find?_cons, hx] at hfind
        simp only [Option.some.injEq] at hfind
        subst hfind
        have hnrx : (nr.item_id == iid) = true := by
          rw [hnr]
          exact hx
        simp [replaceFirst, hx, List.find?_cons, hnrx]
      · have hx' : (x.item_id == iid) = false := by
          simpa using hx
        simp only [List.find?_cons, hx'] at hfind
        simp only [replaceFirst, hx', List.find?_cons, Bool.false_eq_true, if_false]
        exact replaceFirst_find rest iid r nr hfind hnr

/-- C6: when an update succeeds, the stored record for the id has exactly
the non-absent payload fields replaced, keeps every absent field (data,
title, description, created_at and the id itself) identical to its
pre-update value, and carries the current time as updated_at. -/
theorem C6_update_merges_only_present_fields :
    ∀ (coll : List SimpleRecord) (iid : Int) (u : SimpleDataUpdate) (now : Int)
      (r : SimpleRecord) (coll2 : List SimpleRecord),
      coll.find? (fun x => x.item_id == iid) = some r →
      update_data coll iid u now = .ok coll2 →
      ∃ r2, coll2.find? (fun x => x.item_id == iid) = some r2 ∧
        (u.data = none → r2.data = r.data) ∧
        (∀ d, u.data = some d → r2.data = d) ∧
        (u.title = none → r2.title = r.title) ∧
        (∀ t, u.title = some t → r2.title = some t) ∧
        (u.description = none → r2.description = r.description) ∧
        (∀ d, u.description = some d → r2.description = some d) ∧
        r2.updated_at = now ∧ r2.created_at = r.created_at ∧ r2.item_id = r.item_id := by
  intro coll iid u now r coll2 hfind hok
  simp only [update_data, hfind] at hok
  by_cases hbeq : beqSimpleRecord (apply_update r u now) r = true
  · rw [if_pos hbeq] at hok
    cases hok
  · rw [if_neg hbeq] at hok
    simp only [Except.ok.injEq] at hok
    subst hok
    refine ⟨apply_update r u now, replaceFirst_find coll iid r _ hfind rfl,
      ?_, ?_, ?_, ?_, ?_, ?_, rfl, rfl, rfl⟩
    · intro h
      simp [apply_update, h]
    · intro d h
      simp [apply_update, h]
    · intro h
      simp [apply_update, h]
    · intro t h
      simp [apply_update, h]
    · intro h
      simp [apply_update, h]
    · intro d h
      simp [apply_update, h]

/-- C6 witness: updating only the title of a concrete stored record leaves
data and description identical, keeps created_at and the id, and sets
updated_at to the clock value passed in. -/
theorem C6_update_merges_only_present_fields_witness :
    ∃ r2, ([(⟨1, .vdict [("x", .vint 1)], some "t", none, 0, 5⟩ : SimpleRecord)].find?
        (fun x => x.item_id == 1) = some r2) ∧
      ((⟨none, some "t", none⟩ : SimpleDataUpdate).data = none →
        r2.data = Value.vdict [("x", .vint 1)]) ∧
      (∀ d, (⟨none, some "t", none⟩ : SimpleDataUpdate).data = some d → r2.data = d) ∧
      ((⟨none, some "t", none⟩ : SimpleDataUpdate).title = none → r2.title = none) ∧
      (∀ t, (⟨none, some "t", none⟩ : SimpleDataUpdate).title = some t →
        r2.title = some t) ∧
      ((⟨none, some "t", none⟩ : SimpleDataUpdate).description = none →
        r2.description = none) ∧
      (∀ d, (⟨none, some "t", none⟩ : SimpleDataUpdate).description = some d →
        r2.description = some d) ∧
      r2.updated_at = 5 ∧ r2.created_at = 0 ∧ r2.item_id = 1 :=
  C6_update_merges_only_present_fields
    [⟨1, .vdict [("x", .vint 1)], none, none, 0, 0⟩] 1
    ⟨none, some "t", none⟩ 5
    ⟨1, .vdict [("x", .vint 1)], none, none, 0, 0⟩
    [⟨1, .vdict [("x", .vint 1)], some "t", none, 0, 5⟩] rfl rfl

/-- C1: the create handler stores the payload exactly as received — no
handler invokes `sanitize_mongodb_input`. At the concrete payload whose
data dict carries the deny-listed key $where, the document stored by
`create_data` still contains that key, although the sanitizer applied to
the same payload would have removed it. -/
theorem C1_create_stores_denied_key_unsanitized :
    (create_data [] ⟨.vdict [("$where", .vstr "1")], none, none⟩ 0).2
      = [⟨1, .vdict [("$where", .vstr "1")], none, none, 0, 0⟩] ∧
    hasDeniedKey (.vdict [("$where", .vstr "1")]) = true ∧
    sanitize_mongodb_input (.vdict [("$where", .vstr "1")]) = .vdict [] :=
  ⟨rfl, rfl, rfl⟩

/-- The characters rejected by `validate_text_fields` (models.py line 59). -/
def dangerous_chars : List Char := ['<', '>', '"', '\x27', '&']

/-- Python `str.strip()` (applied by `str_strip_whitespace=True`): drop
whitespace from both ends, modelled on the character list. -/
def pyStrip (s : String) : String :=
  String.mk (((s.data.dropWhile Char.isWhitespace).reverse.dropWhile
    Char.isWhitespace).reverse)

/-- Python `char in v` on a string: the character occurs in the text. -/
def pyContains (s : String) (c : Char) : Bool :=
  s.data.contains c

/-- The message of the `ValueError` raised by `validate_text_fields`
(models.py line 62), naming the offending character in single quotes. -/
def invalid_char_msg (c : Char) : String :=
  "Invalid character " ++ String.singleton '\x27' ++ String.singleton c ++
    String.singleton '\x27' ++ " in text field"

/-- Embedding of `PlotlyDataCreate.validate_text_fields` (models.py lines
54-63): walk the deny-list in order and raise on the first deny-listed
character the text contains; None passes through. -/
def validate_text_fields (v : Option String) : Except String (Option String) :=
  match v with
  | none => .ok none
  | some s =>
      match dangerous_chars.find? (fun c => pyContains s c) with
      | some c => .error (invalid_char_msg c)
      | none => .ok (some s)

/-- Embedding of the validation the `SimpleDataCreate` model (models.py
lines 140-150) performs on well-typed payloads: the model declares no
field validator, so apart from whitespace stripping of the string fields
(`str_strip_whitespace=True`) the payload is accepted as-is; in particular
no character check is applied to title or description. -/
def simpleDataCreate_validate (data : Value) (title description : Option String) :
    Except String SimpleDataCreate :=
  .ok ⟨data, title.map pyStrip, description.map pyStrip⟩

/-- A `PlotlyDataUpdate` payload (models.py lines 75-86): every field is
optional and `none` stands for absent or null. -/
structure PlotlyDataUpdate where
  title : Option String
  description : Option String
  chart_type : Option String
  data : Option (List Value)
  layout : Option Value
deriving Repr

/-- Embedding of the validation the `SimpleDataUpdate` model (models.py
lines 152-162) performs on well-typed payloads: the model declares no
field validator, so apart from whitespace stripping of the string fields
(`str_strip_whitespace=True`) the payload is accepted as-is; in particular
no character check is applied to title or description. -/
def simpleDataUpdate_validate (u : SimpleDataUpdate) :
    Except String SimpleDataUpdate :=
  .ok ⟨u.data, u.title.map pyStrip, u.description.map pyStrip⟩

/-- Embedding of the validation the `PlotlyDataUpdate` model (models.py
lines 75-86) performs on well-typed payloads: the model declares neither a
field validator nor whitespace stripping, so the payload is accepted
exactly as received — no character check on title or description. -/
def plotlyDataUpdate_validate (u : PlotlyDataUpdate) :
    Except String PlotlyDataUpdate :=
  .ok u

/-- Lowercase hexadecimal digit. -/
def hexDigit (n : Nat) : Char :=
  if n < 10 then Char.ofNat (48 + n) else Char.ofNat (87 + n)

/-- Four-digit lowercase hexadecimal rendering, as in a JSON `\uXXXX`
escape. -/
def hex4 (n : Nat) : String :=
  String.mk [hexDigit (n / 4096 % 16), hexDigit (n / 256 % 16),
    hexDigit (n / 16 % 16), hexDigit (n % 16)]

/-- Escaping of one character as Python `json.dumps` (ensure_ascii=True)
renders it inside a JSON string literal. -/
def jsonEscapeChar (c : Char) : String :=
  if c = '"' then "\\\""
  else if c = '\\' then "\\\\"
  else if c = '\n' then "\\n"
  else if c = '\t' then "\\t"
  else if c = '\r' then "\\r"
  else if c.toNat = 8 then "\\b"
  else if c.toNat = 12 then "\\f"
  else if c.toNat < 32 then "\\u" ++ hex4 c.toNat
  else if c.toNat < 127 then String.singleton c
  else if c.toNat < 65536 then "\\u" ++ hex4 c.toNat
  else
    "\\u" ++ hex4 (55296 + (c.toNat - 65536) / 1024) ++
      "\\u" ++ hex4 (56320 + (c.toNat - 65536) % 1024)

/-- JSON escaping of a whole string. -/
def jsonEscape (s : String) : String :=
  s.data.foldl (fun acc c => acc ++ jsonEscapeChar c) ""

mutual

/-- Model of Python `json.dumps` with its default separators, used by
`validate_data_size` (models.py line 70) to measure the payload. -/
def dumps : Value → String
  | .vnull => "null"
  | .vbool b => if b then "true" else "false"
  | .vint n => toString n
  | .vstr s => "\"" ++ jsonEscape s ++ "\""
  | .varr vs => "[" ++ dumpsArr vs ++ "]"
  | .vdict kvs => "\x7b" ++ dumpsDict kvs ++ "\x7d"

/-- Comma-separated rendering of array elements. -/
def dumpsArr : List Value → String
  | [] => ""
  | [v] => dumps v
  | v :: rest => dumps v ++ ", " ++ dumpsArr rest

/-- Comma-separated rendering of dict entries. -/
def dumpsDict : List (String × Value) → String
  | [] => ""
  | [(k, v)] => "\"" ++ jsonEscape k ++ "\": " ++ dumps v
  | (k, v) :: rest => "\"" ++ jsonEscape k ++ "\": " ++ dumps v ++ ", " ++ dumpsDict rest

end

/-- The 10 MiB bound of `validate_data_size` (models.py line 71). -/
def max_data_size : Nat := 10 * 1024 * 1024

/-- Errors pydantic reports for the title field of `PlotlyDataCreate`:
the `max_length=200` constraint (models.py line 37), then
`validate_text_fields`; the string is stripped first
(`str_strip_whitespace=True`, models.py line 51). -/
def plotly_title_errors (title : Option String) : List String :=
  match title with
  | none => []
  | some s =>
      if (pyStrip s).length > 200 then ["String should have at most 200 characters"]
      else
        match validate_text_fields (some (pyStrip s)) with
        | .error e => [e]
        | .ok _ => []

/-- Errors for the description field: `max_length=1000` (models.py line
38), then `validate_text_fields`. -/
def plotly_description_errors (description : Option String) : List String :=
  match description with
  | none => []
  | some s =>
      if (pyStrip s).length > 1000 then ["String should have at most 1000 characters"]
      else
        match validate_text_fields (some (pyStrip s)) with
        | .error e => [e]
        | .ok _ => []

/-- Errors for the chart_type field: `max_length=50` (models.py line 39),
no character validator. -/
def plotly_chart_type_errors (chart_type : Option String) : List String :=
  match chart_type with
  | none => []
  | some s =>
      if (pyStrip s).length > 50 then ["String should have at most 50 characters"]
      else []

/-- Errors for the data field: the `max_length=100` constraint on the
trace list (models.py line 43), then `validate_data_size` comparing the
serialized length against 10 MiB (models.py lines 65-73). -/
def plotly_data_errors (data : List Value) : List String :=
  if data.length > 100 then ["List should have at most 100 items"]
  else if (dumps (.varr data)).length > max_data_size then
    ["Data payload too large (max 10MB)"]
  else []

/-- Embedding of the validation pydantic applies to a `PlotlyDataCreate`
payload (models.py lines 35-73): per-field checks run in field order and
their errors are collected; the payload is accepted iff no check fails. -/
def plotlyDataCreate_errors (title description chart_type : Option String)
    (data : List Value) : List String :=
  plotly_title_errors title ++ plotly_description_errors description ++
    plotly_chart_type_errors chart_type ++ plotly_data_errors data

theorem validate_text_fields_ok (s : String)
    (hclean : ∀ c ∈ dangerous_chars, pyContains s c = false) :
    validate_text_fields (some s) = .ok (some s) := by
  have hfind : dangerous_chars.find? (fun c => pyContains s c) = none :=
    List.find?_eq_none.mpr (fun c hc => by simp [hclean c hc])
  simp [validate_text_fields, hfind]

theorem validate_text_fields_err (s : String)
    (hdirty : ∃ c ∈ dangerous_chars, pyContains s c = true) :
    ∃ c ∈ dangerous_chars, pyContains s c = true ∧
      validate_text_fields (some s) = .error (invalid_char_msg c) := by
  obtain ⟨c, hcmem, hcont⟩ := hdirty
  have hsome : (dangerous_chars.find? (fun c => pyContains s c)).isSome :=
    List.find?_isSome.mpr ⟨c, hcmem, hcont⟩
  obtain ⟨c0, hc0⟩ := Option.isSome_iff_exists.mp hsome
  refine ⟨c0, List.mem_of_find?_eq_some hc0, List.find?_some hc0, ?_⟩
  simp [validate_text_fields, hc0]

/-- C2 counterexample: a generic-model create payload whose title contains
the deny-listed character < is accepted — `SimpleDataCreate` declares no
text-field validator, so the claim fails for the generic data model. -/
theorem C2_generic_model_accepts_dangerous_chars :
    pyContains "<b>" '<' = true ∧
    simpleDataCreate_validate (.vdict []) (some "<b>") none
      = .ok ⟨.vdict [], some (pyStrip "<b>"), none⟩ ∧
    pyStrip "<b>" = "<b>" :=
  ⟨by decide, rfl, by decide⟩

/-- C2 amended: only the chart create model checks the text fields. For a
chart create payload, a title or description containing any of the
deny-listed characters fails validation with a message naming one
offending character; clean text fields are accepted; the generic create
model accepts its text fields unconditionally (after stripping); and both
update models accept every payload unconditionally — neither declares a
text validator, so deny-listed characters pass through them. -/
theorem C2_text_field_check_only_on_chart_create :
    (∀ s : String, (∃ c ∈ dangerous_chars, pyContains (pyStrip s) c = true) →
      ∃ c ∈ dangerous_chars, pyContains (pyStrip s) c = true ∧
        ((pyStrip s).length ≤ 200 →
          plotly_title_errors (some s) = [invalid_char_msg c]) ∧
        ((pyStrip s).length ≤ 1000 →
          plotly_description_errors (some s) = [invalid_char_msg c])) ∧
    (∀ s : String, (∀ c ∈ dangerous_chars, pyContains (pyStrip s) c = false) →
      ((pyStrip s).length ≤ 200 → plotly_title_errors (some s) = []) ∧
      ((pyStrip s).length ≤ 1000 → plotly_description_errors (some s) = [])) ∧
    (∀ (d : Value) (t desc : Option String), simpleDataCreate_validate d t desc
      = .ok ⟨d, t.map pyStrip, desc.map pyStrip⟩) ∧
    (∀ u : SimpleDataUpdate, simpleDataUpdate_validate u
      = .ok ⟨u.data, u.title.map pyStrip, u.description.map pyStrip⟩) ∧
    (∀ u : PlotlyDataUpdate, plotlyDataUpdate_validate u = .ok u) := by
  refine ⟨?_, ?_, fun d t desc => rfl, fun u => rfl, fun u => rfl⟩
  · intro s hdirty
    obtain ⟨c, hcmem, hcont, herr⟩ := validate_text_fields_err (pyStrip s) hdirty
    refine ⟨c, hcmem, hcont, ?_, ?_⟩
    · intro hlen
      simp [plotly_title_errors, not_lt.mpr hlen, herr]
    · intro hlen
      simp [plotly_description_errors, not_lt.mpr hlen, herr]
  · intro s hclean
    have hok := validate_text_fields_ok (pyStrip s) hclean
    constructor
    · intro hlen
      simp [plotly_title_errors, not_lt.mpr hlen, hok]
    · intro hlen
      simp [plotly_description_errors, not_lt.mpr hlen, hok]

/-- C2 witness: the title ab<cd fails the chart create check naming a
character, the title abcd passes it, the generic create model accepts the
dangerous title, and both update models accept payloads whose title
contains the deny-listed character <. -/
theorem C2_text_field_check_only_on_chart_create_witness :
    (∃ c ∈ dangerous_chars, pyContains (pyStrip "ab<cd") c = true ∧
      ((pyStrip "ab<cd").length ≤ 200 →
        plotly_title_errors (some "ab<cd") = [invalid_char_msg c]) ∧
      ((pyStrip "ab<cd").length ≤ 1000 →
        plotly_description_errors (some "ab<cd") = [invalid_char_msg c])) ∧
    (((pyStrip "abcd").length ≤ 200 → plotly_title_errors (some "abcd") = []) ∧
      ((pyStrip "abcd").length ≤ 1000 →
        plotly_description_errors (some "abcd") = [])) ∧
    simpleDataCreate_validate (.vdict []) (some "ab<cd") none
      = .ok ⟨.vdict [], some (pyStrip "ab<cd"), none⟩ ∧
    simpleDataUpdate_validate ⟨none, some "ab<cd", none⟩
      = .ok ⟨none, some (pyStrip "ab<cd"), none⟩ ∧
    plotlyDataUpdate_validate ⟨some "ab<cd", none, none, none, none⟩
      = .ok ⟨some "ab<cd", none, none, none, none⟩ :=
  ⟨C2_text_field_check_only_on_chart_create.1 "ab<cd" ⟨'<', by decide, by decide⟩,
   C2_text_field_check_only_on_chart_create.2.1 "abcd" (by decide),
   C2_text_field_check_only_on_chart_create.2.2.1 (.vdict []) (some "ab<cd") none,
   C2_text_field_check_only_on_chart_create.2.2.2.1 ⟨none, some "ab<cd", none⟩,
   C2_text_field_check_only_on_chart_create.2.2.2.2 ⟨some "ab<cd", none, none, none, none⟩⟩

/-- C8: chart create validation fails when the stripped title exceeds 200
characters, when the stripped description exceeds 1000, when the trace
array has more than 100 entries, or when the serialized trace array
exceeds 10 MiB; a payload within all four bounds whose text fields are
otherwise acceptable passes with no error. -/
theorem C8_plotly_create_bounds :
    ∀ (title description chart_type : Option String) (data : List Value),
      (∀ s, title = some s → (pyStrip s).length > 200 →
        plotlyDataCreate_errors title description chart_type data ≠ []) ∧
      (∀ s, description = some s → (pyStrip s).length > 1000 →
        plotlyDataCreate_errors title description chart_type data ≠ []) ∧
      (data.length > 100 →
        plotlyDataCreate_errors title description chart_type data ≠ []) ∧
      ((dumps (.varr data)).length > max_data_size →
        plotlyDataCreate_errors title description chart_type data ≠ []) ∧
      ((∀ s, title = some s → (pyStrip s).length ≤ 200 ∧
          ∀ c ∈ dangerous_chars, pyContains (pyStrip s) c = false) →
       (∀ s, description = some s → (pyStrip s).length ≤ 1000 ∧
          ∀ c ∈ dangerous_chars, pyContains (pyStrip s) c = false) →
       (∀ s, chart_type = some s → (pyStrip s).length ≤ 50) →
       data.length ≤ 100 → (dumps (.varr data)).length ≤ max_data_size →
       plotlyDataCreate_errors title description chart_type data = []) := by
  intro title description chart_type data
  refine ⟨?_, ?_, ?_, ?_, ?_⟩
  · intro s hts hlen hcontra
    subst hts
    have h1 : plotly_title_errors (some s)
        = ["String should have at most 200 characters"] := by
      simp [plotly_title_errors, hlen]
    simp [plotlyDataCreate_errors, h1] at hcontra
  · intro s hds hlen hcontra
    subst hds
    have h2 : plotly_description_errors (some s)
        = ["String should have at most 1000 characters"] := by
      simp [plotly_description_errors, hlen]
    simp [plotlyDataCreate_errors, h2] at hcontra
  · intro hlen hcontra
    have h4 : plotly_data_errors data = ["List should have at most 100 items"] := by
      simp [plotly_data_errors, hlen]
    simp [plotlyDataCreate_errors, h4] at hcontra
  · intro hsize hcontra
    by_cases hlen : data.length > 100
    · have h4 : plotly_data_errors data = ["List should have at most 100 items"] := by
        simp [plotly_data_errors, hlen]
      simp [plotlyDataCreate_errors, h4] at hcontra
    · have h4 : plotly_data_errors data = ["Data payload too large (max 10MB)"] := by
        simp [plotly_data_errors, hlen, hsize]
      simp [plotlyDataCreate_errors, h4] at hcontra
  · intro htitle hdesc hct hcount hsize
    have h1 : plotly_title_errors title = [] := by
      cases title with
      | none => rfl
      | some s =>
          obtain ⟨hlen, hclean⟩ := htitle s rfl
          simp [plotly_title_errors, not_lt.mpr hlen,
            validate_text_fields_ok _ hclean]
    have h2 : plotly_description_errors description = [] := by
      cases description with
      | none => rfl
      | some s =>
          obtain ⟨hlen, hclean⟩ := hdesc s rfl
          simp [plotly_description_errors, not_lt.mpr hlen,
            validate_text_fields_ok _ hclean]
    have h3 : plotly_chart_type_errors chart_type = [] := by
      cases chart_type with
      | none => rfl
      | some s => simp [plotly_chart_type_errors, not_lt.mpr (hct s rfl)]
    have h4 : plotly_data_errors data = [] := by
      simp [plotly_data_errors, not_lt.mpr hcount, not_lt.mpr hsize]
    simp [plotlyDataCreate_errors, h1, h2, h3, h4]

/-- C8 witness: a concrete chart payload within all four bounds passes
validation, and a concrete payload with 101 traces fails it. -/
theorem C8_plotly_create_bounds_witness :
    plotlyDataCreate_errors (some "t") none (some "line")
      [.vdict [("x", .vstr "a")]] = [] ∧
    plotlyDataCreate_errors (some "t") none (some "line")
      (List.replicate 101 .vnull) ≠ [] :=
  ⟨(C8_plotly_create_bounds (some "t") none (some "line")
      [.vdict [("x", .vstr "a")]]).2.2.2.2
      (fun s hs => by
        cases hs
        exact ⟨by decide, by decide⟩)
      (fun s hs => by cases hs)
      (fun s hs => by
        cases hs
        decide)
      (by decide) (by decide),
   (C8_plotly_create_bounds (some "t") none (some "line")
      (List.replicate 101 .vnull)).2.2.1 (by decide)⟩

end FastAPIBackend
